import Mathlib

/-!
Shallow embedding of the Express backend (server bootstrap, config loader,
item controller, validation middleware and the centralized error handler)
and proofs about the behaviour of its request/response pipeline.

JavaScript objects on the wire are modelled as ordered association lists of
JSON values; `undefined`/missing fields are `Option.none`.  JavaScript
truthiness on the fields actually inspected by the code (numbers, strings)
is modelled explicitly (`jsOrNat`, `jsOrStr`, `envTruthy`).
-/

namespace Barcelona

/-- A JSON value as produced by `res.json`. -/
inductive JVal where
  | str (s : String)
  | num (n : Int)
  | bool (b : Bool)
  | null
  | arr (xs : List JVal)
  | obj (fields : List (String × JVal))


/-- A JSON object body: an ordered list of key/value pairs. -/
abbrev JObj := List (String × JVal)

/-- Field lookup in a JSON object (first occurrence of the key). -/
def jlookup : JObj → String → Option JVal
  | [], _ => none
  | (k, v) :: rest, key => if k = key then some v else jlookup rest key

/-- The request context read by the error handler (`req.path`, `req.method`). -/
structure Request where
  path : String
  method : String


/-- A JavaScript `Error`-like value as inspected by `errorHandler`:
`name`, `message`, `statusCode`, `status`, `statusMessage`, `details`,
`stack`; absent properties are `none`. -/
structure JsError where
  name : Option String := none
  message : Option String := none
  statusCode : Option Nat := none
  status : Option Nat := none
  statusMessage : Option String := none
  details : Option (List JVal) := none
  stack : Option String := none


/-- JS `a || b` on an optional number: `undefined` and `0` are falsy. -/
def jsOrNat (a : Option Nat) (b : Nat) : Nat :=
  match a with
  | none => b
  | some n => if n = 0 then b else n

/-- JS `a || b` on an optional string: `undefined` and `""` are falsy. -/
def jsOrStr (a : Option String) (b : String) : String :=
  match a with
  | none => b
  | some s => if s = "" then b else s

/-- `getErrorMessage` from `src/middleware/errorHandler.js`: the fixed
status→message table; unknown codes map to `"Error desconocido"`. -/
def getErrorMessage (statusCode : Nat) : String :=
  if statusCode = 400 then "Solicitud inválida"
  else if statusCode = 401 then "No autorizado"
  else if statusCode = 403 then "Acceso prohibido"
  else if statusCode = 404 then "Recurso no encontrado"
  else if statusCode = 409 then "Conflicto de datos"
  else if statusCode = 422 then "Datos no procesables"
  else if statusCode = 500 then "Error interno del servidor"
  else if statusCode = 503 then "Servicio no disponible"
  else "Error desconocido"

/-- The `error` sub-object of the error envelope. -/
structure ErrObj where
  code : Nat
  message : String
  stack : Option String
  details : Option (List JVal)


/-- The error envelope built by `errorHandler`. -/
structure ErrEnvelope where
  success : Bool
  timestamp : String
  path : String
  method : String
  error : ErrObj


/-- An HTTP response: the status passed to `res.status` plus the envelope. -/
structure ErrResult where
  httpStatus : Nat
  body : ErrEnvelope


/-- `errorHandler` from `src/middleware/errorHandler.js`.
`now` is the clock reading (`new Date().toISOString()`), `mode` is
`process.env.NODE_ENV`.  It resolves
`statusCode = err.statusCode || err.status || 500`, builds the envelope,
applies the four name-specific overrides to `error.code`/`error.message`
(and `error.details` for `ValidationError`), and finally sends
`res.status(statusCode)` — the variable resolved before the overrides. -/
def errorHandler (now mode : String) (err : JsError) (req : Request) : ErrResult :=
  let statusCode := jsOrNat err.statusCode (jsOrNat err.status 500)
  let statusMessage := jsOrStr err.statusMessage (getErrorMessage statusCode)
  let base : ErrObj :=
    { code := statusCode
      message := jsOrStr err.message statusMessage
      stack := if mode = "development" then err.stack else none
      details := none }
  let e1 := if err.name = some "ValidationError" then
      { base with code := 400, message := "Datos de entrada inválidos"
                  details := some (err.details.getD []) }
    else base
  let e2 := if err.name = some "CastError" then
      { e1 with code := 400, message := "ID inválido" } else e1
  let e3 := if err.name = some "JsonWebTokenError" then
      { e2 with code := 401, message := "Token inválido" } else e2
  let e4 := if err.name = some "TokenExpiredError" then
      { e3 with code := 401, message := "Token expirado" } else e3
  { httpStatus := statusCode
    body := { success := false, timestamp := now, path := req.path
              method := req.method, error := e4 } }

/-- Serialization of the error envelope to the JSON wire object.  A `stack`
or `details` key whose value is `undefined` is omitted by `JSON.stringify`,
so optional fields contribute a key only when present. -/
def errEnvelopeJson (b : ErrEnvelope) : JObj :=
  [("success", JVal.bool b.success),
   ("timestamp", JVal.str b.timestamp),
   ("path", JVal.str b.path),
   ("method", JVal.str b.method),
   ("error", JVal.obj
     ([("code", JVal.num b.error.code), ("message", JVal.str b.error.message)]
      ++ (match b.error.stack with | some s => [("stack", JVal.str s)] | none => [])
      ++ (match b.error.details with
          | some d => [("details", JVal.arr d)] | none => [])))]

/-- A value thrown into the middleware chain: either a real `Error`
instance or any other JavaScript value. -/
inductive Thrown where
  | jsErr (e : JsError)
  | nonError (v : JVal)


/-- Outcome of `globalErrorHandler`: either a response was sent, or the
error was forwarded to the next handler (`next(err)`). -/
inductive Outcome where
  | sent (r : ErrResult)
  | forwarded (t : Thrown)


/-- The fresh error substituted by `globalErrorHandler` for a non-`Error`
throwable: `new Error('Error desconocido')` with `statusCode = 500`.
A fresh `Error` has `name = "Error"`; its captured trace string is
environment-dependent and never observed by the properties below, so it is
modelled as absent. -/
def unknownError : JsError :=
  { name := some "Error", message := some "Error desconocido"
    statusCode := some 500 }

/-- `globalErrorHandler` from `src/middleware/errorHandler.js`:
if `res.headersSent`, forward to `next`; if the value is an `Error`
instance, delegate to `errorHandler`; otherwise substitute
`unknownError` and delegate. -/
def globalErrorHandler (now mode : String) (req : Request)
    (headersSent : Bool) (t : Thrown) : Outcome :=
  if headersSent then Outcome.forwarded t
  else match t with
    | Thrown.jsErr e => Outcome.sent (errorHandler now mode e req)
    | Thrown.nonError _ => Outcome.sent (errorHandler now mode unknownError req)

/-! ## JavaScript string-to-number semantics (for `isNaN(id)`) -/

/-- JS StrWhiteSpace characters (the common ones). -/
def isWs (c : Char) : Bool :=
  c = ' ' || c = '\t' || c = '\n' || c = '\r' || c = '\x0b' || c = '\x0c'

/-- Trim leading and trailing whitespace from a character list. -/
def trimChars (cs : List Char) : List Char :=
  ((cs.dropWhile isWs).reverse.dropWhile isWs).reverse

def isDecDigit (c : Char) : Bool := '0' ≤ c && c ≤ '9'

def isHexDigit (c : Char) : Bool :=
  isDecDigit c || ('a' ≤ c && c ≤ 'f') || ('A' ≤ c && c ≤ 'F')

def isOctDigit (c : Char) : Bool := '0' ≤ c && c ≤ '7'

def isBinDigit (c : Char) : Bool := c = '0' || c = '1'

/-- `[+-]? Digits`, nonempty. -/
def signedDigits (cs : List Char) : Bool :=
  match cs with
  | '+' :: r => !r.isEmpty && r.all isDecDigit
  | '-' :: r => !r.isEmpty && r.all isDecDigit
  | r => !r.isEmpty && r.all isDecDigit

/-- Optional exponent part: empty, or `(e|E) [+-]? Digits`. -/
def expOk (cs : List Char) : Bool :=
  match cs with
  | [] => true
  | c :: r => (c = 'e' || c = 'E') && signedDigits r

/-- Unsigned decimal literal: `Digits ['.' Digits?] Exp?` or `'.' Digits Exp?`. -/
def decimalLit (cs : List Char) : Bool :=
  let p := cs.span isDecDigit
  match p.2 with
  | [] => !p.1.isEmpty
  | '.' :: r2 =>
      let q := r2.span isDecDigit
      (!p.1.isEmpty || !q.1.isEmpty) && expOk q.2
  | _ => !p.1.isEmpty && expOk p.2

/-- Unsigned radix literal: `0x`/`0X`, `0o`/`0O` or `0b`/`0B` plus digits. -/
def radixLit (cs : List Char) : Bool :=
  match cs with
  | '0' :: x :: r =>
      ((x = 'x' || x = 'X') && !r.isEmpty && r.all isHexDigit) ||
      ((x = 'o' || x = 'O') && !r.isEmpty && r.all isOctDigit) ||
      ((x = 'b' || x = 'B') && !r.isEmpty && r.all isBinDigit)
  | _ => false

/-- Whether JS `Number(s)` on a string yields a non-NaN number
(ECMAScript StringNumericLiteral): after trimming, the empty string is 0;
otherwise an optionally signed `Infinity` or decimal literal, or an
unsigned radix literal. -/
def jsStringIsNumeric (s : String) : Bool :=
  let cs := trimChars s.data
  match cs with
  | [] => true
  | _ =>
    let body := match cs with
      | '+' :: r => r
      | '-' :: r => r
      | r => r
    body = "Infinity".data || decimalLit body || radixLit cs

/-- JS `isNaN(s)` for a string argument. -/
def jsIsNaN (s : String) : Bool := !jsStringIsNumeric s

/-! ## Item controller (`getAllItemsHandler` … `deleteItemHandler`) and
validation middleware.  The service layer (`mainService`) is an external
collaborator: each handler takes its outcome as an `Except` value
(`Except.error` models a rejected promise caught by the `catch` block).
`calls` records the identifiers passed to the service, so "the collaborator
was never invoked" is expressible. -/

/-- A handler's observable effect: HTTP status, JSON body, service calls. -/
structure HandlerOut where
  status : Nat
  body : JObj
  calls : List String

/-- `getAllItemsHandler`: on success `getAllItems` yields items and a
pagination object; a rejection is caught and answered with 500. -/
def getAllItemsHandler (svc : Except String (List JVal × JVal)) : HandlerOut :=
  match svc with
  | Except.ok r =>
      { status := 200
        body := [("success", JVal.bool true), ("data", JVal.arr r.1),
                 ("pagination", r.2),
                 ("message", JVal.str "Items retrieved successfully")]
        calls := ["getAllItems"] }
  | Except.error e =>
      { status := 500
        body := [("success", JVal.bool false),
                 ("message", JVal.str "Internal server error"),
                 ("error", JVal.str e)]
        calls := ["getAllItems"] }

/-- The JS guard `!id || isNaN(id)`: `id` is falsy when absent or the
empty string; otherwise `isNaN(id)` decides. -/
def invalidId (idp : Option String) : Bool :=
  match idp with
  | none => true
  | some s => s = "" || jsIsNaN s

/-- `getItemByIdHandler`: reject non-numeric ids before calling the
service; `null`/`undefined` from the service means 404. -/
def getItemByIdHandler (idp : Option String)
    (svc : String → Except String (Option JVal)) : HandlerOut :=
  if invalidId idp then
    { status := 400
      body := [("success", JVal.bool false),
               ("message", JVal.str "Invalid ID parameter")]
      calls := [] }
  else
    let id := idp.getD ""
    match svc id with
    | Except.ok none =>
        { status := 404
          body := [("success", JVal.bool false),
                   ("message", JVal.str "Item not found")]
          calls := [id] }
    | Except.ok (some item) =>
        { status := 200
          body := [("success", JVal.bool true), ("data", item),
                   ("message", JVal.str "Item retrieved successfully")]
          calls := [id] }
    | Except.error e =>
        { status := 500
          body := [("success", JVal.bool false),
                   ("message", JVal.str "Internal server error"),
                   ("error", JVal.str e)]
          calls := [id] }

/-- `createItemHandler`: `vErrors` is `validationResult(req).array()`;
a nonempty list short-circuits with 400 before the service is called. -/
def createItemHandler (vErrors : List JVal)
    (svc : Except String JVal) : HandlerOut :=
  if !vErrors.isEmpty then
    { status := 400
      body := [("success", JVal.bool false),
               ("message", JVal.str "Validation failed"),
               ("errors", JVal.arr vErrors)]
      calls := [] }
  else
    match svc with
    | Except.ok item =>
        { status := 201
          body := [("success", JVal.bool true), ("data", item),
                   ("message", JVal.str "Item created successfully")]
          calls := ["createItem"] }
    | Except.error e =>
        { status := 500
          body := [("success", JVal.bool false),
                   ("message", JVal.str "Internal server error"),
                   ("error", JVal.str e)]
          calls := ["createItem"] }

/-- `updateItemHandler`: id check, then validation check, then service;
`null` from the service means 404. -/
def updateItemHandler (idp : Option String) (vErrors : List JVal)
    (svc : String → Except String (Option JVal)) : HandlerOut :=
  if invalidId idp then
    { status := 400
      body := [("success", JVal.bool false),
               ("message", JVal.str "Invalid ID parameter")]
      calls := [] }
  else if !vErrors.isEmpty then
    { status := 400
      body := [("success", JVal.bool false),
               ("message", JVal.str "Validation failed"),
               ("errors", JVal.arr vErrors)]
      calls := [] }
  else
    let id := idp.getD ""
    match svc id with
    | Except.ok none =>
        { status := 404
          body := [("success", JVal.bool false),
                   ("message", JVal.str "Item not found")]
          calls := [id] }
    | Except.ok (some item) =>
        { status := 200
          body := [("success", JVal.bool true), ("data", item),
                   ("message", JVal.str "Item updated successfully")]
          calls := [id] }
    | Except.error e =>
        { status := 500
          body := [("success", JVal.bool false),
                   ("message", JVal.str "Internal server error"),
                   ("error", JVal.str e)]
          calls := [id] }

/-- `deleteItemHandler`: id check, then service; `false` means 404. -/
def deleteItemHandler (idp : Option String)
    (svc : String → Except String Bool) : HandlerOut :=
  if invalidId idp then
    { status := 400
      body := [("success", JVal.bool false),
               ("message", JVal.str "Invalid ID parameter")]
      calls := [] }
  else
    let id := idp.getD ""
    match svc id with
    | Except.ok false =>
        { status := 404
          body := [("success", JVal.bool false),
                   ("message", JVal.str "Item not found")]
          calls := [id] }
    | Except.ok true =>
        { status := 200
          body := [("success", JVal.bool true),
                   ("message", JVal.str "Item deleted successfully")]
          calls := [id] }
    | Except.error e =>
        { status := 500
          body := [("success", JVal.bool false),
                   ("message", JVal.str "Internal server error"),
                   ("error", JVal.str e)]
          calls := [id] }

/-- `validateRequest` middleware (`src/middleware/validation.js`):
`vResult` is the outcome of `validationResult(req)` (`Except.error` models
the `catch` branch); a nonempty error list yields a 400 response, an empty
one falls through to `next()` (`none`). -/
def validateRequest (vResult : Except String (List JVal)) :
    Option (Nat × JObj) :=
  match vResult with
  | Except.ok errs =>
      if !errs.isEmpty then
        some (400, [("success", JVal.bool false),
                    ("message", JVal.str "Validation failed"),
                    ("errors", JVal.arr errs)])
      else none
  | Except.error e =>
      some (500, [("success", JVal.bool false),
                  ("message",
                   JVal.str "Internal server error during validation"),
                  ("error", JVal.str e)])

/-! ## Non-envelope routes (server bootstrap and `routes/index.js`) -/

/-- The `/health` route of the `Server` class:
`{status, timestamp, uptime}` with 200. -/
def healthResponse (now : String) (uptime : Int) : Nat × JObj :=
  (200, [("status", JVal.str "OK"), ("timestamp", JVal.str now),
         ("uptime", JVal.num uptime)])

/-- The catch-all unmatched-route handler:
404 with `{error, path}`. -/
def notFoundResponse (originalUrl : String) : Nat × JObj :=
  (404, [("error", JVal.str "Ruta no encontrada"),
         ("path", JVal.str originalUrl)])

/-- The `GET /api/` welcome route: `{message, timestamp}` with 200. -/
def rootResponse (now : String) : Nat × JObj :=
  (200, [("message", JVal.str "Bienvenido a la API"),
         ("timestamp", JVal.str now)])

/-! ## Configuration validation (`validateEnv`) -/

/-- The process environment: a partial map from variable names to values. -/
def Env := String → Option String

/-- JS `!env[v]`: the variable is falsy when absent or the empty string. -/
def envFalsy (env : Env) (v : String) : Bool :=
  match env v with
  | none => true
  | some s => s = ""

/-- The required environment variables of `validateEnv`. -/
def requiredVars : List String :=
  ["NODE_ENV", "PORT", "DATABASE_URL", "JWT_SECRET"]

/-- `validateEnv` from the config module: filter the required variables
down to the falsy ones and throw when any remain. -/
def validateEnv (env : Env) : Except String Unit :=
  let missingVars := requiredVars.filter (envFalsy env)
  if missingVars.length > 0 then
    Except.error ("Missing required environment variables: " ++
      String.intercalate ", " missingVars)
  else Except.ok ()

/-! ## The set of responses the program can produce -/

/-- Responses produced by the enveloped part of the pipeline: the item
CRUD handlers, the validation middleware and the centralized error
handler (its structured envelope serialized to the wire object). -/
inductive ItemApiResponse : Nat → JObj → Prop where
  | getAll (svc) :
      ItemApiResponse (getAllItemsHandler svc).status (getAllItemsHandler svc).body
  | getById (idp svc) :
      ItemApiResponse (getItemByIdHandler idp svc).status
        (getItemByIdHandler idp svc).body
  | create (vErrors svc) :
      ItemApiResponse (createItemHandler vErrors svc).status
        (createItemHandler vErrors svc).body
  | update (idp vErrors svc) :
      ItemApiResponse (updateItemHandler idp vErrors svc).status
        (updateItemHandler idp vErrors svc).body
  | delete (idp svc) :
      ItemApiResponse (deleteItemHandler idp svc).status
        (deleteItemHandler idp svc).body
  | validation (vResult s b) : validateRequest vResult = some (s, b) →
      ItemApiResponse s b
  | errorH (now mode err req) :
      ItemApiResponse (errorHandler now mode err req).httpStatus
        (errEnvelopeJson (errorHandler now mode err req).body)

/-- All responses the program can produce: the enveloped ones plus the
health route, the welcome route and the unmatched-route handler. -/
inductive ProgramResponse : Nat → JObj → Prop where
  | api (s b) : ItemApiResponse s b → ProgramResponse s b
  | health (now uptime) :
      ProgramResponse (healthResponse now uptime).1 (healthResponse now uptime).2
  | root (now) : ProgramResponse (rootResponse now).1 (rootResponse now).2
  | notFound (url) :
      ProgramResponse (notFoundResponse url).1 (notFoundResponse url).2

/-! ## Theorems -/

/-- C1: a `ValidationError` reaching the centralized error handler is
claimed to get HTTP status 400.  The code only overrides the envelope's
`error.code` to 400 (with the fixed validation message and the attached
details), while `res.status` receives the pre-override
`err.statusCode || err.status || 500`: for a `ValidationError` carrying no
status annotation the client receives HTTP 500 with `error.code = 400` in
the body. -/
theorem c1_validation_error_http_status_eval :
    (errorHandler "2024-01-01T00:00:00.000Z" "production"
      { name := some "ValidationError", message := some "input invalid",
        details := some [JVal.str "name is required",
                         JVal.str "category is required"] }
      ⟨"/api/items", "POST"⟩).httpStatus = 500 ∧
    (errorHandler "2024-01-01T00:00:00.000Z" "production"
      { name := some "ValidationError", message := some "input invalid",
        details := some [JVal.str "name is required",
                         JVal.str "category is required"] }
      ⟨"/api/items", "POST"⟩).body.error.code = 400 ∧
    (errorHandler "2024-01-01T00:00:00.000Z" "production"
      { name := some "ValidationError", message := some "input invalid",
        details := some [JVal.str "name is required",
                         JVal.str "category is required"] }
      ⟨"/api/items", "POST"⟩).body.error.message = "Datos de entrada inválidos" ∧
    ((errorHandler "2024-01-01T00:00:00.000Z" "production"
      { name := some "ValidationError", message := some "input invalid",
        details := some [JVal.str "name is required",
                         JVal.str "category is required"] }
      ⟨"/api/items", "POST"⟩).body.error.details.getD []).length = 2 :=
  ⟨rfl, rfl, rfl, rfl⟩

/-- C2: a `TokenExpiredError` is claimed to get HTTP status 401 with the
fixed expired-token message regardless of its own message or status.  The
fixed message does replace the original one in the envelope, and
`error.code` becomes 401, but `res.status` receives the pre-override
`err.statusCode || err.status || 500`: with no status annotation the
client receives HTTP 500. -/
theorem c2_token_expired_http_status_eval :
    (errorHandler "2024-01-01T00:00:00.000Z" "production"
      { name := some "TokenExpiredError", message := some "jwt expired" }
      ⟨"/api/items", "GET"⟩).httpStatus = 500 ∧
    (errorHandler "2024-01-01T00:00:00.000Z" "production"
      { name := some "TokenExpiredError", message := some "jwt expired" }
      ⟨"/api/items", "GET"⟩).body.error.code = 401 ∧
    (errorHandler "2024-01-01T00:00:00.000Z" "production"
      { name := some "TokenExpiredError", message := some "jwt expired" }
      ⟨"/api/items", "GET"⟩).body.error.message = "Token expirado" :=
  ⟨rfl, rfl, rfl⟩

/-- C5: when the transport reports that headers were already sent, the
global error handler sends nothing and forwards the error to the next
handler in the chain. -/
theorem c5_headers_sent_forwards (now mode : String) (req : Request)
    (t : Thrown) :
    globalErrorHandler now mode req true t = Outcome.forwarded t := rfl

/-- C6: classification is deterministic and free of hidden state: two
invocations of the error handler on the same error, request and mode —
even at different clock readings, the only ambient input — resolve the
same HTTP status and an identical `error` object (code, message, details
and stack alike); only the envelope's timestamp can differ. -/
theorem c6_classification_deterministic (now1 now2 mode : String)
    (err : JsError) (req : Request) :
    (errorHandler now1 mode err req).httpStatus =
      (errorHandler now2 mode err req).httpStatus ∧
    (errorHandler now1 mode err req).body.error =
      (errorHandler now2 mode err req).body.error :=
  ⟨rfl, rfl⟩

/-- C10: a non-`Error` throwable reaching the global error handler (with
headers not yet sent) is replaced by a fresh generic error with
`statusCode = 500` and the fixed unknown-error message, so the client
receives a well-formed 500 envelope. -/
theorem c10_non_error_wrapped (now mode : String) (req : Request) (v : JVal) :
    globalErrorHandler now mode req false (Thrown.nonError v) =
      Outcome.sent (errorHandler now mode unknownError req) ∧
    (errorHandler now mode unknownError req).httpStatus = 500 ∧
    (errorHandler now mode unknownError req).body.error.code = 500 ∧
    (errorHandler now mode unknownError req).body.error.message =
      "Error desconocido" ∧
    (errorHandler now mode unknownError req).body.success = false :=
  ⟨rfl, rfl, rfl, rfl, rfl⟩

/-- The stack field of the envelope is untouched by the name-specific
overrides: it is the source error's trace in development mode and absent
otherwise. -/
theorem errorHandler_stack_eq (now mode : String) (err : JsError)
    (req : Request) :
    (errorHandler now mode err req).body.error.stack =
      if mode = "development" then err.stack else none := by
  unfold errorHandler
  dsimp only
  split_ifs <;> rfl

/-- C3 counterexample: for an error with no status annotation, no kind
name and no message, the envelope message is the Spanish table default
`"Error interno del servidor"`, not `"Internal Server Error"` as the
claim's table states. -/
theorem c3_counterexample :
    (errorHandler "2024-01-01T00:00:00.000Z" "production" {}
      ⟨"/api/items", "GET"⟩).body.error.message = "Error interno del servidor" ∧
    "Error interno del servidor" ≠ "Internal Server Error" :=
  ⟨rfl, by decide⟩

/-- C3 (amended): an error with no `statusCode`, no `status` and no
recognized kind name gets HTTP status 500; if it also carries no message
and no `statusMessage`, the envelope message is the table default for 500,
`"Error interno del servidor"` (unknown codes map to
`"Error desconocido"`). -/
theorem c3_unannotated_defaults_500 (now mode : String) (err : JsError)
    (req : Request)
    (h1 : err.statusCode = none) (h2 : err.status = none)
    (h3 : err.name ≠ some "ValidationError") (h4 : err.name ≠ some "CastError")
    (h5 : err.name ≠ some "JsonWebTokenError")
    (h6 : err.name ≠ some "TokenExpiredError") :
    (errorHandler now mode err req).httpStatus = 500 ∧
    (err.message = none → err.statusMessage = none →
      (errorHandler now mode err req).body.error.message =
        "Error interno del servidor") := by
  constructor
  · simp [errorHandler, h1, h2, jsOrNat]
  · intro hm hsm
    simp [errorHandler, h1, h2, h3, h4, h5, h6, hm, hsm, jsOrNat, jsOrStr,
      getErrorMessage]

/-- C3 witness: the amended statement evaluated on a bare error object. -/
theorem c3_unannotated_defaults_500_witness :
    (errorHandler "T" "test" {} ⟨"/x", "GET"⟩).httpStatus = 500 ∧
    (errorHandler "T" "test" {} ⟨"/x", "GET"⟩).body.error.message =
      "Error interno del servidor" := by
  have h := c3_unannotated_defaults_500 "T" "test" {} ⟨"/x", "GET"⟩
    rfl rfl (by decide) (by decide) (by decide) (by decide)
  exact ⟨h.1, h.2 rfl rfl⟩

/-- C4 counterexample: in mode `"test"` — a non-production mode — an error
carrying a trace still yields an envelope without a stack field, because
the code includes the stack only when the mode is exactly
`"development"`. -/
theorem c4_counterexample :
    (errorHandler "T" "test" { stack := some "Error: boom" }
      ⟨"/x", "GET"⟩).body.error.stack = none ∧
    "test" ≠ "production" :=
  ⟨rfl, by decide⟩

/-- C4 (amended): the envelope carries a stack exactly when the mode is
`"development"` and the source error has a trace; in particular production
responses never carry one. -/
theorem c4_stack_development_only (now mode : String) (err : JsError)
    (req : Request) :
    ((errorHandler now mode err req).body.error.stack ≠ none ↔
      mode = "development" ∧ err.stack ≠ none) ∧
    (mode = "production" →
      (errorHandler now mode err req).body.error.stack = none) := by
  rw [errorHandler_stack_eq]
  constructor
  · by_cases hd : mode = "development" <;> simp [hd]
  · intro hp
    rw [hp, if_neg (by decide)]

/-- C4 witness: the amended statement applied in production mode to an
error carrying a trace. -/
theorem c4_stack_development_only_witness :
    (errorHandler "T" "production" { stack := some "tr" }
      ⟨"/x", "GET"⟩).body.error.stack = none :=
  (c4_stack_development_only "T" "production" { stack := some "tr" }
    ⟨"/x", "GET"⟩).2 rfl

/-- C8: environment validation throws exactly when one of `NODE_ENV`,
`PORT`, `DATABASE_URL`, `JWT_SECRET` is missing or empty, and succeeds
without throwing exactly when all four are present and nonempty. -/
theorem c8_validate_env_iff (env : Env) :
    ((∃ e, validateEnv env = Except.error e) ↔
      ∃ v ∈ requiredVars, envFalsy env v = true) ∧
    (validateEnv env = Except.ok () ↔
      ∀ v ∈ requiredVars, envFalsy env v = false) := by
  by_cases h : (requiredVars.filter (envFalsy env)).length > 0
  · have hne : requiredVars.filter (envFalsy env) ≠ [] := by
      intro hnil
      rw [hnil] at h
      exact Nat.lt_irrefl 0 h
    obtain ⟨v, hv⟩ := List.exists_mem_of_ne_nil _ hne
    have hmem := List.mem_filter.mp hv
    constructor
    · constructor
      · intro _
        exact ⟨v, hmem.1, hmem.2⟩
      · intro _
        refine ⟨"Missing required environment variables: " ++
          String.intercalate ", " (requiredVars.filter (envFalsy env)), ?_⟩
        simp [validateEnv, h]
    · constructor
      · intro hok
        simp [validateEnv, h] at hok
      · intro hall
        exact absurd (hall v hmem.1) (by simp [hmem.2])
  · have hall : ∀ v ∈ requiredVars, envFalsy env v = false := by
      intro v hv
      by_contra hfv
      have hvmem : v ∈ requiredVars.filter (envFalsy env) :=
        List.mem_filter.mpr ⟨hv, by revert hfv; cases envFalsy env v <;> simp⟩
      exact h (List.length_pos.mpr (List.ne_nil_of_mem hvmem))
    constructor
    · constructor
      · intro ⟨e, he⟩
        simp [validateEnv, h] at he
      · intro ⟨v, hv, hfv⟩
        exact absurd (hall v hv) (by simp [hfv])
    · constructor
      · intro _
        exact hall
      · intro _
        simp [validateEnv, h]

/-- C9: a get-item-by-id request whose id parameter is absent or fails the
JS numeric test is answered 400 with the fixed invalid-id envelope, and
the data-access collaborator is never invoked. -/
theorem c9_invalid_id_rejected (idp : Option String)
    (svc : String → Except String (Option JVal))
    (h : idp = none ∨ ∃ s, idp = some s ∧ jsIsNaN s = true) :
    (getItemByIdHandler idp svc).status = 400 ∧
    (getItemByIdHandler idp svc).body =
      [("success", JVal.bool false),
       ("message", JVal.str "Invalid ID parameter")] ∧
    (getItemByIdHandler idp svc).calls = [] := by
  have hinv : invalidId idp = true := by
    rcases h with h | ⟨s, hs, hnan⟩
    · rw [h]; rfl
    · rw [hs]
      simp [invalidId, hnan]
  simp [getItemByIdHandler, hinv]

/-- C9 witness: `GET /api/items/abc` is rejected before the service
runs. -/
theorem c9_invalid_id_rejected_witness :
    (getItemByIdHandler (some "abc") (fun _ => Except.ok none)).status = 400 ∧
    (getItemByIdHandler (some "abc") (fun _ => Except.ok none)).body =
      [("success", JVal.bool false),
       ("message", JVal.str "Invalid ID parameter")] ∧
    (getItemByIdHandler (some "abc") (fun _ => Except.ok none)).calls = [] :=
  c9_invalid_id_rejected (some "abc") (fun _ => Except.ok none)
    (Or.inr ⟨"abc", rfl, by decide⟩)

/-- C7 counterexample: the health route's response carries no `success`
field at all, so not every response of the program uses one of the two
envelope shapes. -/
theorem c7_counterexample :
    ProgramResponse 200
      [("status", JVal.str "OK"),
       ("timestamp", JVal.str "2024-01-01T00:00:00.000Z"),
       ("uptime", JVal.num 12)] ∧
    jlookup
      [("status", JVal.str "OK"),
       ("timestamp", JVal.str "2024-01-01T00:00:00.000Z"),
       ("uptime", JVal.num 12)] "success" = none :=
  ⟨ProgramResponse.health "2024-01-01T00:00:00.000Z" 12, rfl⟩

/-- C7 (amended): every response of the item CRUD handlers, the
validation middleware and the centralized error handler carries a boolean
`success` field and never populates both `data` and `error`; the health
route, the welcome route and the unmatched-route handler return
non-envelope bodies without a `success` field. -/
theorem c7_item_api_envelope (s : Nat) (b : JObj) (h : ItemApiResponse s b) :
    (∃ bb : Bool, jlookup b "success" = some (JVal.bool bb)) ∧
    (jlookup b "data" = none ∨ jlookup b "error" = none) := by
  cases h with
  | getAll svc =>
      cases svc with
      | ok r => exact ⟨⟨true, rfl⟩, Or.inr rfl⟩
      | error e => exact ⟨⟨false, rfl⟩, Or.inl rfl⟩
  | getById idp svc =>
      unfold getItemByIdHandler
      dsimp only
      split
      · exact ⟨⟨false, rfl⟩, Or.inl rfl⟩
      · split
        · exact ⟨⟨false, rfl⟩, Or.inl rfl⟩
        · exact ⟨⟨true, rfl⟩, Or.inr rfl⟩
        · exact ⟨⟨false, rfl⟩, Or.inl rfl⟩
  | create vErrors svc =>
      unfold createItemHandler
      split
      · exact ⟨⟨false, rfl⟩, Or.inl rfl⟩
      · split
        · exact ⟨⟨true, rfl⟩, Or.inr rfl⟩
        · exact ⟨⟨false, rfl⟩, Or.inl rfl⟩
  | update idp vErrors svc =>
      unfold updateItemHandler
      dsimp only
      split
      · exact ⟨⟨false, rfl⟩, Or.inl rfl⟩
      · split
        · exact ⟨⟨false, rfl⟩, Or.inl rfl⟩
        · split
          · exact ⟨⟨false, rfl⟩, Or.inl rfl⟩
          · exact ⟨⟨true, rfl⟩, Or.inr rfl⟩
          · exact ⟨⟨false, rfl⟩, Or.inl rfl⟩
  | delete idp svc =>
      unfold deleteItemHandler
      dsimp only
      split
      · exact ⟨⟨false, rfl⟩, Or.inl rfl⟩
      · split
        · exact ⟨⟨false, rfl⟩, Or.inl rfl⟩
        · exact ⟨⟨true, rfl⟩, Or.inl rfl⟩
        · exact ⟨⟨false, rfl⟩, Or.inl rfl⟩
  | validation vResult s b hv =>
      cases vResult with
      | ok errs =>
          cases errs with
          | nil => simp [validateRequest] at hv
          | cons x xs =>
              simp [validateRequest] at hv
              obtain ⟨hs, hb⟩ := hv
              subst hb
              exact ⟨⟨false, rfl⟩, Or.inl rfl⟩
      | error e =>
          simp [validateRequest] at hv
          obtain ⟨hs, hb⟩ := hv
          subst hb
          exact ⟨⟨false, rfl⟩, Or.inl rfl⟩
  | errorH now mode err req =>
      exact ⟨⟨(errorHandler now mode err req).body.success, rfl⟩, Or.inl rfl⟩

/-- C7 witness: the amended statement evaluated on a concrete response of
the get-item-by-id handler. -/
theorem c7_item_api_envelope_witness :
    (∃ bb : Bool, jlookup
      [("success", JVal.bool false),
       ("message", JVal.str "Invalid ID parameter")] "success" =
        some (JVal.bool bb)) ∧
    (jlookup
      [("success", JVal.bool false),
       ("message", JVal.str "Invalid ID parameter")] "data" = none ∨
     jlookup
      [("success", JVal.bool false),
       ("message", JVal.str "Invalid ID parameter")] "error" = none) :=
  c7_item_api_envelope 400
    [("success", JVal.bool false),
     ("message", JVal.str "Invalid ID parameter")]
    (ItemApiResponse.getById (some "abc") (fun _ => Except.ok none))

end Barcelona
